import Mathlib

/-!
Verification of the metrics-aggregation engine of `src/dashboard.py`
(university admissions dashboard).

The dashboard is a linear script over a pandas DataFrame.  We embed the
DataFrame as a `List StudentTermRecord` (one element per row, fields per the
CSV columns listed in `load_data`) and each pandas transformation as a pure
Lean function translated from the corresponding lines of the script.
Percent columns are modelled as exact rationals, counts as naturals, years
as integers.

pandas `groupby` emits its groups keyed by the distinct key values (sorted
by key).  We enumerate the distinct keys with `List.dedup`; none of the
verified properties depend on the order in which group rows are emitted,
only on the set of groups and their contents.

Operations that the specification assigns to the engine but that have no
implementation anywhere in the repository (`latest_term`, the
`DataConsistencyWarning` report, the typed `MissingColumnError` /
`EmptyInputError` failures) are modelled from the spec's words; each such
definition carries a doc comment starting `Modelled from the spec:`.
-/

/-- One row of `university_student_dashboard_data.csv`, with the columns the
script reads: Year, Term, Applications, Admitted, Enrolled,
Retention Rate (%), Student Satisfaction (%), and the four department
enrollment columns. -/
structure StudentTermRecord where
  year : Int
  term : String
  applications : Nat
  admitted : Nat
  enrolled : Nat
  retentionRatePct : ℚ
  satisfactionPct : ℚ
  artsEnrolled : Nat
  scienceEnrolled : Nat
  engineeringEnrolled : Nat
  businessEnrolled : Nat
deriving DecidableEq, Repr

/-- Helper for Python's substring test: `takesLead p l` is true when the
character list `p` is an initial segment of `l` (helper for Python's substring test). -/
def takesLead : List Char → List Char → Bool
  | [], _ => true
  | _ :: _, [] => false
  | p :: ps, c :: cs => p = c && takesLead ps cs

/-- Predicate `hasSub p l` is true when `p` occurs contiguously somewhere in `l`
(Python's `p in l` on strings, over their character lists). -/
def hasSub (p : List Char) : List Char → Bool
  | [] => takesLead p []
  | c :: cs => takesLead p (c :: cs) || hasSub p cs

/-- Python's `pat in s` substring containment on strings. -/
def strContains (s pat : String) : Bool :=
  hasSub pat.toList s.toList

/-- dashboard.py line 18:
`'Spring' if 'Spring' in x else ('Fall' if 'Fall' in x else 'Other')`. -/
def classifySeason (x : String) : String :=
  if strContains x "Spring" then "Spring"
  else if strContains x "Fall" then "Fall"
  else "Other"

/-- dashboard.py lines 31–33: start from a copy of the frame and keep only
the rows of the selected term unless the sentinel `"All"` was chosen. -/
def filterByTerm (records : List StudentTermRecord) (selected : String) :
    List StudentTermRecord :=
  if selected ≠ "All" then records.filter (fun r => r.term = selected)
  else records

/-- Unweighted arithmetic mean (pandas `mean`), as an exact rational. -/
def meanQ (xs : List ℚ) : ℚ :=
  xs.sum / (xs.length : ℚ)

/-- One output row of the five-column `groupby("Term").agg` used for the
Spring/Fall comparison (dashboard.py lines 163–177). -/
structure TermRow where
  term : String
  applications : Nat
  admitted : Nat
  enrolled : Nat
  retentionRatePct : ℚ
  satisfactionPct : ℚ
deriving DecidableEq, Repr

/-- The rows of one `groupby("Term")` group. -/
def groupRecords (records : List StudentTermRecord) (t : String) :
    List StudentTermRecord :=
  records.filter (fun r => r.term = t)

/-- The aggregate row of one term group: counts summed, percent columns
averaged (unweighted), per the `agg` dict of dashboard.py lines 163–177. -/
def aggRow (t : String) (g : List StudentTermRecord) : TermRow :=
  { term := t
    applications := (g.map (·.applications)).sum
    admitted := (g.map (·.admitted)).sum
    enrolled := (g.map (·.enrolled)).sum
    retentionRatePct := meanQ (g.map (·.retentionRatePct))
    satisfactionPct := meanQ (g.map (·.satisfactionPct)) }

/-- The full `groupby("Term").agg({sum,sum,sum,mean,mean}).reset_index()`: one row
per distinct term string. -/
def aggregateByTerm (records : List StudentTermRecord) : List TermRow :=
  ((records.map (·.term)).dedup).map
    (fun t => aggRow t (groupRecords records t))

/-- One row of the admissions-overview aggregation (dashboard.py 57–61). -/
structure AdmissionsRow where
  term : String
  applications : Nat
  admitted : Nat
  enrolled : Nat
deriving DecidableEq, Repr

/-- dashboard.py lines 57–61: `groupby("Term").agg` summing Applications,
Admitted and Enrolled. -/
def admissionsData (records : List StudentTermRecord) : List AdmissionsRow :=
  ((records.map (·.term)).dedup).map
    (fun t =>
      { term := t
        applications := ((groupRecords records t).map (·.applications)).sum
        admitted := ((groupRecords records t).map (·.admitted)).sum
        enrolled := ((groupRecords records t).map (·.enrolled)).sum })

/-- The engine's typed error taxonomy (spec §7): `EmptyInputError` for an
operation given zero rows, `MissingColumnError` naming an absent required
column. -/
inductive EngineError where
  | EmptyInputError : EngineError
  | MissingColumnError : String → EngineError
deriving DecidableEq, Repr

/-- Modelled from the spec: the term-ordinal of the chronological sort key
(Spring = 0, Fall = 1); labels that are neither are ordered after both
within a year.  No ordinal exists anywhere in src/dashboard.py. -/
def termOrdinal (t : String) : Nat :=
  if strContains t "Spring" then 0
  else if strContains t "Fall" then 1
  else 2

/-- Comparison `chronoAfter x b`: the (year, term-ordinal) key of `x` is strictly
greater than that of `b` (lexicographic on the pair). -/
def chronoAfter (x b : StudentTermRecord) : Bool :=
  (b.year < x.year) || (b.year = x.year && termOrdinal b.term < termOrdinal x.term)

/-- Comparison `chronoLe a b`: the (year, term-ordinal) key of `a` is at most that of
`b` (lexicographic on the pair). -/
def chronoLe (a b : StudentTermRecord) : Bool :=
  (a.year < b.year) || (a.year = b.year && termOrdinal a.term ≤ termOrdinal b.term)

/-- Modelled from the spec: `latest_term`.  src/dashboard.py never computes
a chronologically latest row — line 27 only sorts the term labels lexically
for the filter widget — so this follows the spec's contract: return the row
with the chronologically greatest (year, term-ordinal) pair, and fail with
`EmptyInputError` on a table of zero rows. -/
def latestTerm : List StudentTermRecord → Except EngineError StudentTermRecord
  | [] => Except.error EngineError.EmptyInputError
  | r :: rs =>
    Except.ok (rs.foldl (fun best x => if chronoAfter x best then x else best) r)

/-- dashboard.py lines 163–177: apply the term filter, split the filtered
rows by the derived Season column, and aggregate each side by term
independently (`spring_data`, `fall_data`). -/
def seasonalComparison (records : List StudentTermRecord) (selected : String) :
    List TermRow × List TermRow :=
  let filtered := filterByTerm records selected
  (aggregateByTerm (filtered.filter (fun r => classifySeason r.term = "Spring")),
   aggregateByTerm (filtered.filter (fun r => classifySeason r.term = "Fall")))

/-- dashboard.py lines 179–191: tag each non-empty side with its season and
concatenate; when both sides are empty the chart is skipped (`none`, the
"Insufficient data" branch). -/
def seasonalCombined (records : List StudentTermRecord) (selected : String) :
    Option (List (TermRow × String)) :=
  let s := (seasonalComparison records selected).1
  let f := (seasonalComparison records selected).2
  if s = [] ∧ f = [] then none
  else some ((s.map (fun r => (r, "Spring"))) ++ (f.map (fun r => (r, "Fall"))))

/-- One row of the department pie-chart table (dashboard.py 133–141). -/
structure DeptRow where
  department : String
  enrollments : Nat
deriving DecidableEq, Repr

/-- dashboard.py lines 133–141: the four department totals over the
(term-filtered) frame, one row per department. -/
def departmentTotals (records : List StudentTermRecord) : List DeptRow :=
  [⟨"Arts", (records.map (·.artsEnrolled)).sum⟩,
   ⟨"Science", (records.map (·.scienceEnrolled)).sum⟩,
   ⟨"Engineering", (records.map (·.engineeringEnrolled)).sum⟩,
   ⟨"Business", (records.map (·.businessEnrolled)).sum⟩]

/-- A record whose four department counts reconcile with its enrolled
total (the spec's soft invariant). -/
def recordConsistent (r : StudentTermRecord) : Bool :=
  r.artsEnrolled + r.scienceEnrolled + r.engineeringEnrolled + r.businessEnrolled
    = r.enrolled

/-- Modelled from the spec: the `DataConsistencyWarning` report attached to
`department_totals`.  src/dashboard.py computes the totals (lines 133–141)
but contains no consistency validation; per the spec's words the engine
reports, without failing, every row whose department sub-totals do not
reconcile with `enrolled`, alongside the totals computed from the values as
given. -/
def departmentTotalsChecked (records : List StudentTermRecord) :
    List DeptRow × List StudentTermRecord :=
  (departmentTotals records, records.filter (fun r => !recordConsistent r))

/-- The four department enrollment columns, in the order the script lists
them (column label, column accessor). -/
def deptColumns : List (String × (StudentTermRecord → Nat)) :=
  [("Arts Enrolled", fun r => r.artsEnrolled),
   ("Science Enrolled", fun r => r.scienceEnrolled),
   ("Engineering Enrolled", fun r => r.engineeringEnrolled),
   ("Business Enrolled", fun r => r.businessEnrolled)]

/-- One row of the multi-year department trend table (dashboard.py 252–257). -/
structure YearDeptRow where
  year : Int
  department : String
  enrollments : Nat
deriving DecidableEq, Repr

/-- dashboard.py lines 252–257:
`df.melt(id_vars=["Year"], value_vars=dept columns)` over the unfiltered
frame — for each department column, one output row per input record,
carrying that single record's value (no grouping, no summing). -/
def departmentTrendByYear (records : List StudentTermRecord) : List YearDeptRow :=
  (deptColumns.map (fun p => records.map (fun r => ⟨r.year, p.1, p.2 r⟩))).flatten

/-- One row of the per-term department trend table (dashboard.py 213–218). -/
structure TermDeptRow where
  term : String
  year : Int
  department : String
  enrollments : Nat
deriving DecidableEq, Repr

/-- dashboard.py lines 213–218:
`filtered_df.melt(id_vars=["Term", "Year"], value_vars=dept_columns)`. -/
def deptLong (records : List StudentTermRecord) : List TermDeptRow :=
  (deptColumns.map (fun p => records.map (fun r => ⟨r.term, r.year, p.1, p.2 r⟩))).flatten

/-- The required logical schema of the input file (spec §6). -/
def requiredColumns : List String :=
  ["Year", "Term", "Applications", "Admitted", "Enrolled",
   "Retention Rate (%)", "Student Satisfaction (%)", "Arts Enrolled",
   "Science Enrolled", "Engineering Enrolled", "Business Enrolled"]

/-- Modelled from the spec: the schema check of the loading boundary.
src/dashboard.py (lines 12–19) indexes the columns directly with no typed
failure; per the spec's words, `MissingColumnError` is raised, naming an
absent column, if any required column is missing from the frame. -/
def checkColumns (present : List String) : Except EngineError Unit :=
  match requiredColumns.find? (fun c => decide (c ∉ present)) with
  | some c => Except.error (EngineError.MissingColumnError c)
  | none => Except.ok ()

/-- Modelled from the spec: the average-retention KPI of dashboard.py line
45 with the spec's failure semantics — pandas `mean` over zero rows yields
NaN silently, while the spec requires `EmptyInputError` for an operation
given zero rows; on a non-empty input the unweighted mean is returned
unchanged. -/
def avgRetentionChecked (records : List StudentTermRecord) :
    Except EngineError ℚ :=
  match records with
  | [] => Except.error EngineError.EmptyInputError
  | _ :: _ => Except.ok (meanQ (records.map (·.retentionRatePct)))

/-- Modelled from the spec: the average-satisfaction KPI of dashboard.py
line 46, with the spec's `EmptyInputError` semantics on zero rows. -/
def avgSatisfactionChecked (records : List StudentTermRecord) :
    Except EngineError ℚ :=
  match records with
  | [] => Except.error EngineError.EmptyInputError
  | _ :: _ => Except.ok (meanQ (records.map (·.satisfactionPct)))

/-- dashboard.py lines 39–44: the total-enrollments KPI sums the Enrolled
column when the frame has one, and otherwise falls back to the sum of the
four department enrollment columns. -/
def totalEnrollments (hasEnrolledColumn : Bool)
    (filtered : List StudentTermRecord) : Nat :=
  if hasEnrolledColumn then (filtered.map (·.enrolled)).sum
  else
    (filtered.map (·.artsEnrolled)).sum + (filtered.map (·.scienceEnrolled)).sum
      + (filtered.map (·.engineeringEnrolled)).sum
      + (filtered.map (·.businessEnrolled)).sum

/-- Everything the script derives from the loaded frame in one pass. -/
structure Outputs where
  totalApplications : Nat
  totalAdmissions : Nat
  totalEnrolled : Nat
  avgRetention : ℚ
  avgSatisfaction : ℚ
  admissionsOverview : List AdmissionsRow
  deptData : List DeptRow
  springData : List TermRow
  fallData : List TermRow
  deptLongData : List TermDeptRow
  deptTrendYears : List YearDeptRow

/-- The whole derivation pass of the script, as explicit state passing: it
returns every derived table together with the record set the session still
holds afterwards.  The script works on a copy (`df.copy()`, line 31) and
only ever rebinds `filtered_df`; `df` itself is never reassigned, and every
pandas operation used (filter, groupby/agg, melt, concat, sum, mean)
returns a new object. -/
def runDashboard (df : List StudentTermRecord) (selectedTerm : String) :
    Outputs × List StudentTermRecord :=
  let filtered := filterByTerm df selectedTerm
  (⟨(filtered.map (·.applications)).sum,
    (filtered.map (·.admitted)).sum,
    totalEnrollments true filtered,
    meanQ (filtered.map (·.retentionRatePct)),
    meanQ (filtered.map (·.satisfactionPct)),
    admissionsData filtered,
    departmentTotals filtered,
    (seasonalComparison df selectedTerm).1,
    (seasonalComparison df selectedTerm).2,
    deptLong filtered,
    departmentTrendByYear df⟩, df)

/-! ### Concrete sample records (spec §8's end-to-end example and variants) -/

/-- The "Fall 2022" row of the spec's end-to-end example. -/
def recFall2022 : StudentTermRecord :=
  { year := 2022, term := "Fall 2022", applications := 30000,
    admitted := 18000, enrolled := 7000, retentionRatePct := 85,
    satisfactionPct := 80, artsEnrolled := 1000, scienceEnrolled := 2000,
    engineeringEnrolled := 2500, businessEnrolled := 1500 }

/-- The "Spring 2023" row of the spec's end-to-end example. -/
def recSpring2023 : StudentTermRecord :=
  { year := 2023, term := "Spring 2023", applications := 29400,
    admitted := 17100, enrolled := 6980, retentionRatePct := 892 / 10,
    satisfactionPct := 852 / 10, artsEnrolled := 1480,
    scienceEnrolled := 1500, engineeringEnrolled := 2500,
    businessEnrolled := 1500 }

/-- A second term in the same year as `recSpring2023`. -/
def recFall2023 : StudentTermRecord :=
  { year := 2023, term := "Fall 2023", applications := 30500,
    admitted := 18200, enrolled := 7100, retentionRatePct := 90,
    satisfactionPct := 86, artsEnrolled := 1500, scienceEnrolled := 1400,
    engineeringEnrolled := 2600, businessEnrolled := 1600 }

/-- A "Spring 2020" row: lexically greatest term label of the pair below. -/
def recSpring2020 : StudentTermRecord :=
  { year := 2020, term := "Spring 2020", applications := 28000,
    admitted := 16000, enrolled := 6500, retentionRatePct := 84,
    satisfactionPct := 78, artsEnrolled := 1300, scienceEnrolled := 1700,
    engineeringEnrolled := 2100, businessEnrolled := 1400 }

/-- A "Fall 2021" row: chronologically after `recSpring2020` though its
term label sorts before "Spring 2020". -/
def recFall2021 : StudentTermRecord :=
  { year := 2021, term := "Fall 2021", applications := 29000,
    admitted := 17000, enrolled := 6800, retentionRatePct := 86,
    satisfactionPct := 81, artsEnrolled := 1350, scienceEnrolled := 1800,
    engineeringEnrolled := 2200, businessEnrolled := 1450 }

/-! ### Partition lemmas for the group-by sums -/

/-- Summing an indicator over a duplicate-free key list that contains the
marked key yields the marked value. -/
lemma sum_map_ite_eq {M : Type} [AddCommMonoid M] (keys : List String)
    (a : String) (c : M) (hnd : keys.Nodup) (ha : a ∈ keys) :
    (keys.map (fun t => if a = t then c else (0 : M))).sum = c := by
  induction keys with
  | nil => simp at ha
  | cons k ks ih =>
    rw [List.map_cons, List.sum_cons]
    by_cases hak : a = k
    · subst hak
      rw [if_pos rfl]
      have h0 : (ks.map (fun t => if a = t then c else (0 : M))).sum = 0 := by
        apply List.sum_eq_zero
        intro x hx
        rcases List.mem_map.mp hx with ⟨t, ht, rfl⟩
        have hat : a ≠ t := fun h => (List.nodup_cons.mp hnd).1 (h ▸ ht)
        simp [hat]
      rw [h0, add_zero]
    · rw [if_neg hak, zero_add]
      exact ih (List.nodup_cons.mp hnd).2 ((List.mem_cons.mp ha).resolve_left hak)

/-- Pointwise-sum distribution over a mapped list. -/
lemma sum_map_add_split {M : Type} [AddCommMonoid M] (l : List String)
    (f g : String → M) :
    (l.map fun t => f t + g t).sum = (l.map f).sum + (l.map g).sum := by
  induction l with
  | nil => simp
  | cons k ks ih =>
    simp only [List.map_cons, List.sum_cons, ih]
    abel

/-- Grouping partitions the whole: summing a column within each term group
and then over a duplicate-free key list covering every record reproduces
the column's total. -/
lemma sum_filter_partition {M : Type} [AddCommMonoid M]
    (f : StudentTermRecord → M) (l : List StudentTermRecord)
    (keys : List String) (hnd : keys.Nodup)
    (hmem : ∀ r ∈ l, r.term ∈ keys) :
    (keys.map (fun t => ((l.filter (fun r => r.term = t)).map f).sum)).sum
      = (l.map f).sum := by
  induction l generalizing keys with
  | nil => simp
  | cons r rs ih =>
    have hterm : r.term ∈ keys := hmem r (List.mem_cons_self r rs)
    have hrs : ∀ x ∈ rs, x.term ∈ keys := fun x hx =>
      hmem x (List.mem_cons_of_mem r hx)
    have hsplit : ∀ t : String,
        (((r :: rs).filter (fun x => x.term = t)).map f).sum
          = (if r.term = t then f r else 0)
            + ((rs.filter (fun x => x.term = t)).map f).sum := by
      intro t
      by_cases h : r.term = t
      · rw [List.filter_cons_of_pos (by simpa using h), List.map_cons,
          List.sum_cons, if_pos h]
      · rw [List.filter_cons_of_neg (by simpa using h), if_neg h, zero_add]
    calc (keys.map fun t =>
            (((r :: rs).filter fun x => x.term = t).map f).sum).sum
        = (keys.map fun t =>
            (if r.term = t then f r else 0)
              + ((rs.filter fun x => x.term = t).map f).sum).sum := by
          exact congrArg List.sum (List.map_congr_left fun t _ => hsplit t)
      _ = (keys.map fun t => if r.term = t then f r else (0 : M)).sum
            + (keys.map fun t =>
                ((rs.filter fun x => x.term = t).map f).sum).sum :=
          sum_map_add_split keys _ _
      _ = f r + (rs.map f).sum := by
          rw [sum_map_ite_eq keys r.term (f r) hnd hterm, ih keys hnd hrs]
      _ = ((r :: rs).map f).sum := by rw [List.map_cons, List.sum_cons]

/-- The distinct term labels of a record list are duplicate-free and cover
every record. -/
lemma termKeys_sound (records : List StudentTermRecord) :
    ((records.map (·.term)).dedup).Nodup
      ∧ ∀ r ∈ records, r.term ∈ (records.map (·.term)).dedup :=
  ⟨List.nodup_dedup _, fun _ hr =>
    List.mem_dedup.mpr (List.mem_map_of_mem _ hr)⟩

/-- C1: `aggregate_by_term` groups records by exact term string, sums
`applications`, `admitted` and `enrolled` within each group, averages the
two percent columns unweighted, and consequently the sum of each summed
column over the output rows equals its sum over the input records — for
both the five-column aggregation (lines 163–177) and the admissions
overview (lines 57–61). -/
theorem aggregateByTerm_sums_partition (records : List StudentTermRecord)
    (_h : records ≠ []) :
    ((aggregateByTerm records).map (·.applications)).sum
        = (records.map (·.applications)).sum
    ∧ ((aggregateByTerm records).map (·.admitted)).sum
        = (records.map (·.admitted)).sum
    ∧ ((aggregateByTerm records).map (·.enrolled)).sum
        = (records.map (·.enrolled)).sum
    ∧ ((admissionsData records).map (·.applications)).sum
        = (records.map (·.applications)).sum
    ∧ ((admissionsData records).map (·.admitted)).sum
        = (records.map (·.admitted)).sum
    ∧ ((admissionsData records).map (·.enrolled)).sum
        = (records.map (·.enrolled)).sum
    ∧ ∀ row ∈ aggregateByTerm records,
        row.retentionRatePct
            = meanQ ((records.filter (fun r => r.term = row.term)).map
                (·.retentionRatePct))
          ∧ row.satisfactionPct
            = meanQ ((records.filter (fun r => r.term = row.term)).map
                (·.satisfactionPct)) := by
  obtain ⟨hnd, hmem⟩ := termKeys_sound records
  refine ⟨?_, ?_, ?_, ?_, ?_, ?_, ?_⟩
  · rw [aggregateByTerm, List.map_map]
    exact sum_filter_partition (·.applications) records _ hnd hmem
  · rw [aggregateByTerm, List.map_map]
    exact sum_filter_partition (·.admitted) records _ hnd hmem
  · rw [aggregateByTerm, List.map_map]
    exact sum_filter_partition (·.enrolled) records _ hnd hmem
  · rw [admissionsData, List.map_map]
    exact sum_filter_partition (·.applications) records _ hnd hmem
  · rw [admissionsData, List.map_map]
    exact sum_filter_partition (·.admitted) records _ hnd hmem
  · rw [admissionsData, List.map_map]
    exact sum_filter_partition (·.enrolled) records _ hnd hmem
  · intro row hrow
    rcases List.mem_map.mp hrow with ⟨t, _, rfl⟩
    exact ⟨rfl, rfl⟩

/-- Witness for C1: the partition identity applied to the spec's two-term
example record set. -/
theorem aggregateByTerm_sums_partition_witness :
    ((aggregateByTerm [recFall2022, recSpring2023]).map (·.applications)).sum
      = ([recFall2022, recSpring2023].map (·.applications)).sum :=
  (aggregateByTerm_sums_partition [recFall2022, recSpring2023]
    (List.cons_ne_nil _ _)).1

/-! ### Substring containment, correct against its mathematical reading -/

/-- Correctness: `takesLead` decides "is an initial segment of". -/
lemma takesLead_iff (p : List Char) : ∀ l : List Char,
    takesLead p l = true ↔ ∃ t, l = p ++ t := by
  induction p with
  | nil => intro l; simp [takesLead]
  | cons a ps ih =>
    intro l
    cases l with
    | nil => simp [takesLead]
    | cons c cs =>
      simp only [takesLead, Bool.and_eq_true, decide_eq_true_eq, ih,
        List.cons_append, List.cons.injEq]
      constructor
      · rintro ⟨rfl, t, rfl⟩
        exact ⟨t, rfl, rfl⟩
      · rintro ⟨t, rfl, rfl⟩
        exact ⟨rfl, t, rfl⟩

/-- Correctness: `hasSub` decides contiguous-substring occurrence. -/
lemma hasSub_iff (p : List Char) : ∀ l : List Char,
    hasSub p l = true ↔ ∃ pre post, l = pre ++ p ++ post := by
  intro l
  induction l with
  | nil =>
    simp only [hasSub, takesLead_iff]
    constructor
    · rintro ⟨t, ht⟩
      exact ⟨[], t, by simpa using ht⟩
    · rintro ⟨pre, post, hp⟩
      rcases List.append_eq_nil.mp (List.append_eq_nil.mp hp.symm).1 with ⟨-, h2⟩
      exact ⟨[], by simp [h2]⟩
  | cons c cs ih =>
    simp only [hasSub, Bool.or_eq_true, takesLead_iff, ih]
    constructor
    · rintro (⟨t, ht⟩ | ⟨pre, post, hp⟩)
      · exact ⟨[], t, by simpa using ht⟩
      · exact ⟨c :: pre, post, by simp [hp]⟩
    · rintro ⟨pre, post, hp⟩
      cases pre with
      | nil =>
        left
        exact ⟨post, by simpa using hp⟩
      | cons x xs =>
        right
        simp only [List.cons_append, List.cons.injEq] at hp
        exact ⟨xs, post, hp.2⟩

/-- C2: `classify_season` returns "Spring" whenever the label contains the
substring "Spring" (case-sensitive, read as a genuine contiguous-substring
occurrence), otherwise "Fall" when it contains "Fall", otherwise "Other";
a label containing both substrings classifies as "Spring"
(first-checked-wins), as on the spec's four example labels. -/
theorem classifySeason_spec :
    (∀ s pat : String, strContains s pat = true ↔
      ∃ pre post, s.toList = pre ++ pat.toList ++ post)
    ∧ (∀ s : String,
        (strContains s "Spring" = true → classifySeason s = "Spring")
        ∧ (strContains s "Spring" = false → strContains s "Fall" = true →
            classifySeason s = "Fall")
        ∧ (strContains s "Spring" = false → strContains s "Fall" = false →
            classifySeason s = "Other"))
    ∧ classifySeason "Spring 2023" = "Spring"
    ∧ classifySeason "Fall 2023" = "Fall"
    ∧ classifySeason "Summer 2023" = "Other"
    ∧ classifySeason "Spring/Fall Hybrid 2023" = "Spring" := by
  refine ⟨fun s pat => hasSub_iff pat.toList s.toList, fun s => ⟨?_, ?_, ?_⟩,
    by decide, by decide, by decide, by decide⟩
  · intro h1
    simp [classifySeason, h1]
  · intro h1 h2
    simp [classifySeason, h1, h2]
  · intro h1 h2
    simp [classifySeason, h1, h2]

/-- Witness for C2: the tie-break case, with both hypotheses discharged on
the concrete hybrid label. -/
theorem classifySeason_spec_witness :
    classifySeason "Fall 2023" = "Fall" :=
  (classifySeason_spec.2.1 "Fall 2023").2.1 (by decide) (by decide)

/-! ### The chronological (year, term-ordinal) order -/

/-- Reflexivity of `chronoLe`. -/
lemma chronoLe_refl (a : StudentTermRecord) : chronoLe a a = true := by
  simp [chronoLe]

/-- Whoever wins a strictly-after comparison is an upper bound of the
loser. -/
lemma chronoLe_of_after (x b : StudentTermRecord)
    (h : chronoAfter x b = true) : chronoLe b x = true := by
  simp only [chronoAfter, Bool.or_eq_true, Bool.and_eq_true,
    decide_eq_true_eq] at h
  simp only [chronoLe, Bool.or_eq_true, Bool.and_eq_true, decide_eq_true_eq]
  omega

/-- A failed strictly-after comparison keeps the incumbent as an upper
bound. -/
lemma chronoLe_of_not_after (x b : StudentTermRecord)
    (h : chronoAfter x b = false) : chronoLe x b = true := by
  simp only [chronoAfter, Bool.or_eq_false_iff, Bool.and_eq_false_iff,
    decide_eq_false_iff_not, not_lt] at h
  simp only [chronoLe, Bool.or_eq_true, Bool.and_eq_true, decide_eq_true_eq]
  omega

/-- Transitivity of `chronoLe`. -/
lemma chronoLe_trans (a b c : StudentTermRecord)
    (hab : chronoLe a b = true) (hbc : chronoLe b c = true) :
    chronoLe a c = true := by
  simp only [chronoLe, Bool.or_eq_true, Bool.and_eq_true,
    decide_eq_true_eq] at hab hbc ⊢
  omega

/-- The running maximum of the chronological fold stays inside the list. -/
lemma pickFold_mem : ∀ (rs : List StudentTermRecord) (r : StudentTermRecord),
    rs.foldl (fun best x => if chronoAfter x best then x else best) r ∈ r :: rs := by
  intro rs
  induction rs with
  | nil => intro r; simp
  | cons a as ih =>
    intro r
    rw [List.foldl_cons]
    by_cases hc : chronoAfter a r = true
    · rw [if_pos hc]
      rcases List.mem_cons.mp (ih a) with h | h
      · rw [h]; exact List.mem_cons_of_mem r (List.mem_cons_self a as)
      · exact List.mem_cons_of_mem r (List.mem_cons_of_mem a h)
    · rw [if_neg hc]
      rcases List.mem_cons.mp (ih r) with h | h
      · rw [h]; exact List.mem_cons_self r (a :: as)
      · exact List.mem_cons_of_mem r (List.mem_cons_of_mem a h)

/-- The chronological fold dominates every element it has seen. -/
lemma pickFold_ge : ∀ (rs : List StudentTermRecord) (r x : StudentTermRecord),
    x ∈ r :: rs →
    chronoLe x (rs.foldl (fun best y => if chronoAfter y best then y else best) r)
      = true := by
  intro rs
  induction rs with
  | nil =>
    intro r x hx
    rw [List.foldl_nil]
    rcases List.mem_cons.mp hx with h | h
    · rw [h]; exact chronoLe_refl r
    · simp at h
  | cons a as ih =>
    intro r x hx
    rw [List.foldl_cons]
    have hstep :
        chronoLe r (if chronoAfter a r then a else r) = true
          ∧ chronoLe a (if chronoAfter a r then a else r) = true := by
      by_cases hc : chronoAfter a r = true
      · rw [if_pos hc]
        exact ⟨chronoLe_of_after a r hc, chronoLe_refl a⟩
      · rw [if_neg hc]
        exact ⟨chronoLe_refl r,
          chronoLe_of_not_after a r (Bool.not_eq_true _ ▸ hc)⟩
    rcases List.mem_cons.mp hx with h | h
    · rw [h]
      exact chronoLe_trans _ _ _ hstep.1 (ih _ _ (List.mem_cons_self _ _))
    · rcases List.mem_cons.mp h with h2 | h2
      · rw [h2]
        exact chronoLe_trans _ _ _ hstep.2 (ih _ _ (List.mem_cons_self _ _))
      · exact ih _ x (List.mem_cons_of_mem _ h2)

/-- C3: `latest_term` fails with `EmptyInputError` on zero rows; on any
other input it returns a row of the input whose (year, term-ordinal) pair
dominates every row chronologically; on {(2022 Fall), (2023 Spring)} it
returns the 2023 Spring row, and on {(2020 Spring), (2021 Fall)} it returns
the 2021 Fall row even though "Spring 2020" is the lexically greatest term
label. -/
theorem latestTerm_spec :
    latestTerm [] = Except.error EngineError.EmptyInputError
    ∧ (∀ (records : List StudentTermRecord) (r : StudentTermRecord),
        latestTerm records = Except.ok r →
          r ∈ records ∧ ∀ x ∈ records, chronoLe x r = true)
    ∧ latestTerm [recFall2022, recSpring2023] = Except.ok recSpring2023
    ∧ latestTerm [recSpring2020, recFall2021] = Except.ok recFall2021 := by
  refine ⟨rfl, ?_, by rfl, by rfl⟩
  intro records r h
  cases records with
  | nil => simp [latestTerm] at h
  | cons a as =>
    have hr : as.foldl (fun best x => if chronoAfter x best then x else best) a
        = r := by
      simpa [latestTerm] using h
    subst hr
    exact ⟨pickFold_mem as a, fun x hx => pickFold_ge as a x hx⟩

/-- Witness for C3: the general contract applied to the spec's two-record
example, with the hypothesis discharged by evaluation. -/
theorem latestTerm_spec_witness :
    recSpring2023 ∈ [recFall2022, recSpring2023]
      ∧ ∀ x ∈ [recFall2022, recSpring2023], chronoLe x recSpring2023 = true :=
  latestTerm_spec.2.1 [recFall2022, recSpring2023] recSpring2023 (by rfl)

/-- C4: `filter_by_term` with the sentinel "All" returns the record set
unchanged (same cardinality and content); with any non-sentinel value it
returns exactly the records whose term equals that value, so a value
matching no record yields the empty subset (and no error is possible —
the operation is total). -/
theorem filterByTerm_spec :
    (∀ records : List StudentTermRecord,
      filterByTerm records "All" = records
        ∧ (filterByTerm records "All").length = records.length)
    ∧ (∀ (records : List StudentTermRecord) (t : String), t ≠ "All" →
        (∀ r ∈ records, r.term ≠ t) → filterByTerm records t = [])
    ∧ (∀ (records : List StudentTermRecord) (t : String), t ≠ "All" →
        ∀ r : StudentTermRecord,
          r ∈ filterByTerm records t ↔ r ∈ records ∧ r.term = t) := by
  refine ⟨fun records => ⟨by simp [filterByTerm], by simp [filterByTerm]⟩,
    ?_, ?_⟩
  · intro records t ht hnone
    rw [filterByTerm, if_pos ht]
    exact List.filter_eq_nil_iff.mpr fun r hr => by
      simpa using hnone r hr
  · intro records t ht r
    rw [filterByTerm, if_pos ht]
    simp [List.mem_filter]

/-- Witness for C4: filtering the spec's example set by a term absent from
it yields the empty subset. -/
theorem filterByTerm_spec_witness :
    filterByTerm [recFall2022, recSpring2023] "Nonexistent Term" = [] :=
  filterByTerm_spec.2.1 [recFall2022, recSpring2023] "Nonexistent Term"
    (by decide) (by decide)

/-- C5: the seasonal comparison filters by term first, then splits on the
derived season, then aggregates each season independently by term; a season
with no rows after filtering yields the explicit empty table, and the
combined output is still produced whenever the other side has data — the
operation never fails as a whole because one side is empty. -/
theorem seasonalComparison_spec (records : List StudentTermRecord)
    (sel : String) :
    (seasonalComparison records sel).1
        = aggregateByTerm ((filterByTerm records sel).filter
            (fun r => classifySeason r.term = "Spring"))
    ∧ (seasonalComparison records sel).2
        = aggregateByTerm ((filterByTerm records sel).filter
            (fun r => classifySeason r.term = "Fall"))
    ∧ ((filterByTerm records sel).filter
          (fun r => classifySeason r.term = "Spring") = [] →
        (seasonalComparison records sel).1 = [])
    ∧ ((filterByTerm records sel).filter
          (fun r => classifySeason r.term = "Fall") = [] →
        (seasonalComparison records sel).2 = [])
    ∧ ((seasonalComparison records sel).1 ≠ []
        ∨ (seasonalComparison records sel).2 ≠ [] →
        seasonalCombined records sel
          = some ((((seasonalComparison records sel).1).map
                (fun r => (r, "Spring")))
              ++ (((seasonalComparison records sel).2).map
                (fun r => (r, "Fall"))))) := by
  refine ⟨rfl, rfl, ?_, ?_, ?_⟩
  · intro h
    show aggregateByTerm _ = []
    rw [h]
    rfl
  · intro h
    show aggregateByTerm _ = []
    rw [h]
    rfl
  · intro h
    rw [seasonalCombined, if_neg]
    intro hboth
    rcases h with h1 | h2
    · exact h1 hboth.1
    · exact h2 hboth.2

/-- Witness for C5: on a one-record Fall-only data set the Spring side is
the explicit empty table, yet the combined output is still produced from
the Fall side. -/
theorem seasonalComparison_spec_witness :
    seasonalCombined [recFall2022] "All"
      = some ((((seasonalComparison [recFall2022] "All").1).map
            (fun r => (r, "Spring")))
          ++ (((seasonalComparison [recFall2022] "All").2).map
            (fun r => (r, "Fall")))) :=
  (seasonalComparison_spec [recFall2022] "All").2.2.2.2
    (Or.inr (by decide))

/-- C6: `department_totals` sums each of the four department enrollment
columns over the given record set, and the checked variant flags, without
failing, exactly the records whose department counts do not sum to their
enrolled total, while its totals are the plain sums computed from the
values as given. -/
theorem departmentTotals_spec (records : List StudentTermRecord) :
    departmentTotals records
        = [⟨"Arts", (records.map (·.artsEnrolled)).sum⟩,
           ⟨"Science", (records.map (·.scienceEnrolled)).sum⟩,
           ⟨"Engineering", (records.map (·.engineeringEnrolled)).sum⟩,
           ⟨"Business", (records.map (·.businessEnrolled)).sum⟩]
    ∧ (departmentTotalsChecked records).1 = departmentTotals records
    ∧ (∀ r : StudentTermRecord,
        r ∈ (departmentTotalsChecked records).2
          ↔ r ∈ records
            ∧ r.artsEnrolled + r.scienceEnrolled + r.engineeringEnrolled
                + r.businessEnrolled ≠ r.enrolled) := by
  refine ⟨rfl, rfl, ?_⟩
  intro r
  simp [departmentTotalsChecked, List.mem_filter, recordConsistent]

/-- Counterexample to C7: on two records of the same year (Spring 2023 and
Fall 2023), the multi-year department trend table of dashboard.py lines
252–257 holds two rows for the (2023, "Arts Enrolled") pair — one per input
record, with the per-record values 1480 and 1500, not one summed row — and
eight rows in total for the four departments. -/
theorem departmentTrendByYear_not_one_row_per_pair :
    ((departmentTrendByYear [recSpring2023, recFall2023]).filter
        (fun row => row.year = 2023 ∧ row.department = "Arts Enrolled")).length
      = 2
    ∧ (departmentTrendByYear [recSpring2023, recFall2023]).length = 8
    ∧ ((departmentTrendByYear [recSpring2023, recFall2023]).filter
        (fun row => row.year = 2023 ∧ row.department = "Arts Enrolled")).map
          (·.enrollments) = [1480, 1500] := by
  decide

/-- C7 amended: the melt at dashboard.py lines 252–257 produces, for each
of the four department columns in order, one row per input record of the
unfiltered set, carrying the record's year and that single record's
enrollment value — 4·n rows for n records, values not summed per year; the
per-department column totals are nevertheless preserved in sum. -/
theorem departmentTrendByYear_spec (records : List StudentTermRecord) :
    departmentTrendByYear records
        = (records.map (fun r =>
              (⟨r.year, "Arts Enrolled", r.artsEnrolled⟩ : YearDeptRow)))
          ++ ((records.map (fun r =>
              (⟨r.year, "Science Enrolled", r.scienceEnrolled⟩ : YearDeptRow)))
          ++ ((records.map (fun r =>
              (⟨r.year, "Engineering Enrolled", r.engineeringEnrolled⟩ : YearDeptRow)))
          ++ (records.map (fun r =>
              (⟨r.year, "Business Enrolled", r.businessEnrolled⟩ : YearDeptRow)))))
    ∧ (departmentTrendByYear records).length = 4 * records.length
    ∧ (((departmentTrendByYear records).filter
          (fun row => row.department = "Arts Enrolled")).map (·.enrollments)).sum
        = (records.map (·.artsEnrolled)).sum := by
  refine ⟨?_, ?_, ?_⟩
  · simp [departmentTrendByYear, deptColumns]
  · simp [departmentTrendByYear, deptColumns]
    ring
  · have hsame : ∀ g : StudentTermRecord → Nat,
        ((records.map (fun r => (⟨r.year, "Arts Enrolled", g r⟩ : YearDeptRow))).filter
            (fun row => row.department = "Arts Enrolled")).map (·.enrollments)
          = records.map g := by
      intro g
      induction records with
      | nil => rfl
      | cons a as iha => simp [List.filter_cons, iha]
    have hother : ∀ (dep : String) (g : StudentTermRecord → Nat),
        dep ≠ "Arts Enrolled" →
          (records.map (fun r => (⟨r.year, dep, g r⟩ : YearDeptRow))).filter
            (fun row => row.department = "Arts Enrolled") = [] := by
      intro dep g hdep
      apply List.filter_eq_nil_iff.mpr
      intro row hrow
      rcases List.mem_map.mp hrow with ⟨r, -, rfl⟩
      simpa using hdep
    simp only [departmentTrendByYear, deptColumns, List.map_cons,
      List.map_nil, List.flatten_cons, List.flatten_nil, List.append_nil,
      List.filter_append, List.map_append, List.sum_append]
    rw [hsame (fun r => r.artsEnrolled),
      hother "Science Enrolled" (fun r => r.scienceEnrolled) (by decide),
      hother "Engineering Enrolled" (fun r => r.engineeringEnrolled) (by decide),
      hother "Business Enrolled" (fun r => r.businessEnrolled) (by decide)]
    simp

/-- C8: the checked engine boundary fails with a typed error instead of
silently producing NaN or garbage: the schema check fails with
`MissingColumnError` exactly when a required column is absent (and
succeeds exactly when all are present), and the two KPI means fail with
`EmptyInputError` exactly on zero rows, returning the genuine unweighted
mean — no substituted default — on any non-empty input. -/
theorem typedErrors_spec :
    (∀ present : List String,
      (∃ c, checkColumns present
          = Except.error (EngineError.MissingColumnError c))
        ↔ ∃ c ∈ requiredColumns, c ∉ present)
    ∧ (∀ present : List String,
        checkColumns present = Except.ok ()
          ↔ ∀ c ∈ requiredColumns, c ∈ present)
    ∧ (∀ records : List StudentTermRecord,
        (avgRetentionChecked records
            = Except.error EngineError.EmptyInputError ↔ records = [])
        ∧ (records ≠ [] → avgRetentionChecked records
            = Except.ok (meanQ (records.map (·.retentionRatePct)))))
    ∧ (∀ records : List StudentTermRecord,
        (avgSatisfactionChecked records
            = Except.error EngineError.EmptyInputError ↔ records = [])
        ∧ (records ≠ [] → avgSatisfactionChecked records
            = Except.ok (meanQ (records.map (·.satisfactionPct))))) := by
  refine ⟨?_, ?_, ?_, ?_⟩
  · intro present
    cases h : requiredColumns.find? (fun c => decide (c ∉ present)) with
    | some c =>
      constructor
      · intro _
        refine ⟨c, List.mem_of_find?_eq_some h, ?_⟩
        simpa using List.find?_some h
      · intro _
        exact ⟨c, by rw [checkColumns, h]⟩
    | none =>
      constructor
      · rintro ⟨c, hc⟩
        rw [checkColumns, h] at hc
        cases hc
      · rintro ⟨c, hcr, hcp⟩
        have hnp := List.find?_eq_none.mp h c hcr
        simp at hnp
        exact absurd hnp hcp
  · intro present
    cases h : requiredColumns.find? (fun c => decide (c ∉ present)) with
    | some c =>
      constructor
      · intro heq
        rw [checkColumns, h] at heq
        cases heq
      · intro hall
        have h1 : c ∉ present := by simpa using List.find?_some h
        exact absurd (hall c (List.mem_of_find?_eq_some h)) h1
    | none =>
      constructor
      · intro _ c hcr
        have hnp := List.find?_eq_none.mp h c hcr
        simpa using hnp
      · intro _
        rw [checkColumns, h]
  · intro records
    cases records with
    | nil =>
      exact ⟨⟨fun _ => rfl, fun _ => rfl⟩, fun hne => absurd rfl hne⟩
    | cons a as =>
      refine ⟨⟨fun heq => ?_, fun heq => by cases heq⟩, fun _ => rfl⟩
      simp [avgRetentionChecked] at heq
  · intro records
    cases records with
    | nil =>
      exact ⟨⟨fun _ => rfl, fun _ => rfl⟩, fun hne => absurd rfl hne⟩
    | cons a as =>
      refine ⟨⟨fun heq => ?_, fun heq => by cases heq⟩, fun _ => rfl⟩
      simp [avgSatisfactionChecked] at heq

/-- Witness for C8: the retention KPI on a concrete one-row input succeeds
with the exact mean, the non-emptiness hypothesis discharged there. -/
theorem typedErrors_spec_witness :
    avgRetentionChecked [recFall2022]
      = Except.ok (meanQ ([recFall2022].map (·.retentionRatePct))) :=
  (typedErrors_spec.2.2.1 [recFall2022]).2 (List.cons_ne_nil _ _)

/-- C9: no engine operation mutates its input — the whole derivation pass,
written as explicit state passing, returns the record set unchanged
alongside every derived table, and re-running the pass on the returned
record set reproduces the same derived tables (every aggregation is a
fresh function of the immutable input). -/
theorem runDashboard_preserves_records (df : List StudentTermRecord)
    (sel : String) :
    (runDashboard df sel).2 = df
      ∧ runDashboard ((runDashboard df sel).2) sel = runDashboard df sel :=
  ⟨rfl, rfl⟩

/-- C10: the total-enrollments KPI over the term-filtered records sums the
Enrolled column when the frame has one, and otherwise falls back to the
sum of the four department enrollment columns instead of failing. -/
theorem totalEnrollments_spec (records : List StudentTermRecord)
    (sel : String) :
    totalEnrollments true (filterByTerm records sel)
        = ((filterByTerm records sel).map (·.enrolled)).sum
    ∧ totalEnrollments false (filterByTerm records sel)
        = ((filterByTerm records sel).map (·.artsEnrolled)).sum
          + ((filterByTerm records sel).map (·.scienceEnrolled)).sum
          + ((filterByTerm records sel).map (·.engineeringEnrolled)).sum
          + ((filterByTerm records sel).map (·.businessEnrolled)).sum :=
  ⟨rfl, rfl⟩
